import Mathlib

/-!
Verification development for the ecosystem ML service
(`src/backend/ml_service.py`).

The Python module is embedded shallowly:

* population counts are idealised as rationals (`ℚ`); feature vectors live
  in `ℝ` because `np.std` takes a square root;
* Python exceptions are modelled with `Option`/`Except`: an operation that
  can raise returns `none`/`.error msg`, and a `try/except` block is a
  `match` on that result;
* the scikit-learn classifier, scaler and the disk persistence layer are
  opaque third-party collaborators: they are abstracted as function-valued
  parameters that may fail (`Except String _`), since every call to them in
  the source sits inside a `try` block that catches arbitrary exceptions.
-/

/-- One population snapshot, the record handled throughout
`ml_service.py`: a dict with keys `step`, `plants`, `herbivores`,
`carnivores`. -/
structure Snapshot where
  step : ℚ
  plants : ℚ
  herbivores : ℚ
  carnivores : ℚ
deriving DecidableEq

instance : Inhabited Snapshot := ⟨⟨0, 0, 0, 0⟩⟩

/-- Python division `a / b`: raises `ZeroDivisionError` when `b = 0`,
modelled by `none`. -/
def pydiv (a b : ℚ) : Option ℚ :=
  if b = 0 then none else some (a / b)

/-- Mean of a list of values, as computed by `np.std` internally
(division by the length; the service only calls it on 5-element windows). -/
def npMean (l : List ℚ) : ℚ := l.sum / (l.length : ℚ)

/-- Population variance (`ddof=0`), the default of `np.std`. -/
def npVar (l : List ℚ) : ℚ :=
  ((l.map (fun x => (x - npMean l) ^ 2)).sum) / (l.length : ℚ)

/-- `np.std` with its default `ddof=0`: square root of the population
variance. -/
noncomputable def npStd (l : List ℚ) : ℝ := Real.sqrt ((npVar l : ℚ) : ℝ)

/-- The 19 features of spec §4.1 in their fixed order, for a window
`[s0, s1, s2, s3, s4]` (oldest first, `s4` current): three current
populations; three per-species rates of change `(last - first) / 5`;
the three ratios with denominators floored at 1; total biomass; three
per-species population standard deviations (`ddof=0`); then per-species
min and max over the window. This is the spec-side list that both code
transcriptions below are proved to produce. -/
noncomputable def featureList (s0 s1 s2 s3 s4 : Snapshot) : List ℝ :=
  [ ((s4.plants : ℚ) : ℝ),
    ((s4.herbivores : ℚ) : ℝ),
    ((s4.carnivores : ℚ) : ℝ),
    (((s4.plants - s0.plants) / 5 : ℚ) : ℝ),
    (((s4.herbivores - s0.herbivores) / 5 : ℚ) : ℝ),
    (((s4.carnivores - s0.carnivores) / 5 : ℚ) : ℝ),
    ((s4.plants / max s4.herbivores 1 : ℚ) : ℝ),
    ((s4.herbivores / max s4.carnivores 1 : ℚ) : ℝ),
    ((s4.carnivores / max s4.herbivores 1 : ℚ) : ℝ),
    ((s4.plants + s4.herbivores + s4.carnivores : ℚ) : ℝ),
    npStd [s0.plants, s1.plants, s2.plants, s3.plants, s4.plants],
    npStd [s0.herbivores, s1.herbivores, s2.herbivores, s3.herbivores, s4.herbivores],
    npStd [s0.carnivores, s1.carnivores, s2.carnivores, s3.carnivores, s4.carnivores],
    ((min (min (min (min s0.plants s1.plants) s2.plants) s3.plants) s4.plants : ℚ) : ℝ),
    ((max (max (max (max s0.plants s1.plants) s2.plants) s3.plants) s4.plants : ℚ) : ℝ),
    ((min (min (min (min s0.herbivores s1.herbivores) s2.herbivores) s3.herbivores) s4.herbivores : ℚ) : ℝ),
    ((max (max (max (max s0.herbivores s1.herbivores) s2.herbivores) s3.herbivores) s4.herbivores : ℚ) : ℝ),
    ((min (min (min (min s0.carnivores s1.carnivores) s2.carnivores) s3.carnivores) s4.carnivores : ℚ) : ℝ),
    ((max (max (max (max s0.carnivores s1.carnivores) s2.carnivores) s3.carnivores) s4.carnivores : ℚ) : ℝ) ]

/-- The `feature_row` built inside the training loop of
`EcosystemPredictor.prepare_features` (lines 72-103): `lookback.iloc[-1]`
is the current snapshot `s4`, `lookback.iloc[0]` is `s0`, the biomass is
the literal three-way sum, divisions are Python divisions (guarded by
`max(_, 1)`), and min/max fold over the five window values.  The loop
always passes a window of exactly 5 rows (`df.iloc[i-5:i]` with
`i ≥ 5`), so other lengths are out of the function's domain. -/
noncomputable def trainFeatureRow : List Snapshot → Option (List ℝ)
  | [s0, s1, s2, s3, s4] =>
    (pydiv s4.plants (max s4.herbivores 1)).bind (fun r1 =>
    (pydiv s4.herbivores (max s4.carnivores 1)).bind (fun r2 =>
    (pydiv s4.carnivores (max s4.herbivores 1)).bind (fun r3 =>
    some
      [ ((s4.plants : ℚ) : ℝ),
        ((s4.herbivores : ℚ) : ℝ),
        ((s4.carnivores : ℚ) : ℝ),
        (((s4.plants - s0.plants) / 5 : ℚ) : ℝ),
        (((s4.herbivores - s0.herbivores) / 5 : ℚ) : ℝ),
        (((s4.carnivores - s0.carnivores) / 5 : ℚ) : ℝ),
        ((r1 : ℚ) : ℝ),
        ((r2 : ℚ) : ℝ),
        ((r3 : ℚ) : ℝ),
        ((s4.plants + s4.herbivores + s4.carnivores : ℚ) : ℝ),
        npStd [s0.plants, s1.plants, s2.plants, s3.plants, s4.plants],
        npStd [s0.herbivores, s1.herbivores, s2.herbivores, s3.herbivores, s4.herbivores],
        npStd [s0.carnivores, s1.carnivores, s2.carnivores, s3.carnivores, s4.carnivores],
        ((min (min (min (min s0.plants s1.plants) s2.plants) s3.plants) s4.plants : ℚ) : ℝ),
        ((max (max (max (max s0.plants s1.plants) s2.plants) s3.plants) s4.plants : ℚ) : ℝ),
        ((min (min (min (min s0.herbivores s1.herbivores) s2.herbivores) s3.herbivores) s4.herbivores : ℚ) : ℝ),
        ((max (max (max (max s0.herbivores s1.herbivores) s2.herbivores) s3.herbivores) s4.herbivores : ℚ) : ℝ),
        ((min (min (min (min s0.carnivores s1.carnivores) s2.carnivores) s3.carnivores) s4.carnivores : ℚ) : ℝ),
        ((max (max (max (max s0.carnivores s1.carnivores) s2.carnivores) s3.carnivores) s4.carnivores : ℚ) : ℝ) ])))
  | _ => none

/-- The feature vector built inside
`EcosystemPredictor.predict_collapse_risk` (lines 189-220): the same
recipe transcribed from the inference site, where `lookback` is a plain
list, the biomass is `sum([lookback[-1][pop] for pop in ...])` (a list
sum rather than a literal three-way sum) and min/max run over the list
comprehensions `[d[k] for d in lookback]`.  It is always called on
`recent_data[-5:]` with `len(recent_data) ≥ 5`, i.e. on exactly 5
snapshots. -/
noncomputable def inferFeatureRow : List Snapshot → Option (List ℝ)
  | [s0, s1, s2, s3, s4] =>
    (pydiv s4.plants (max s4.herbivores 1)).bind (fun r1 =>
    (pydiv s4.herbivores (max s4.carnivores 1)).bind (fun r2 =>
    (pydiv s4.carnivores (max s4.herbivores 1)).bind (fun r3 =>
    some
      [ ((s4.plants : ℚ) : ℝ),
        ((s4.herbivores : ℚ) : ℝ),
        ((s4.carnivores : ℚ) : ℝ),
        (((s4.plants - s0.plants) / 5 : ℚ) : ℝ),
        (((s4.herbivores - s0.herbivores) / 5 : ℚ) : ℝ),
        (((s4.carnivores - s0.carnivores) / 5 : ℚ) : ℝ),
        ((r1 : ℚ) : ℝ),
        ((r2 : ℚ) : ℝ),
        ((r3 : ℚ) : ℝ),
        (([s4.plants, s4.herbivores, s4.carnivores].sum : ℚ) : ℝ),
        npStd [s0.plants, s1.plants, s2.plants, s3.plants, s4.plants],
        npStd [s0.herbivores, s1.herbivores, s2.herbivores, s3.herbivores, s4.herbivores],
        npStd [s0.carnivores, s1.carnivores, s2.carnivores, s3.carnivores, s4.carnivores],
        ((min (min (min (min s0.plants s1.plants) s2.plants) s3.plants) s4.plants : ℚ) : ℝ),
        ((max (max (max (max s0.plants s1.plants) s2.plants) s3.plants) s4.plants : ℚ) : ℝ),
        ((min (min (min (min s0.herbivores s1.herbivores) s2.herbivores) s3.herbivores) s4.herbivores : ℚ) : ℝ),
        ((max (max (max (max s0.herbivores s1.herbivores) s2.herbivores) s3.herbivores) s4.herbivores : ℚ) : ℝ),
        ((min (min (min (min s0.carnivores s1.carnivores) s2.carnivores) s3.carnivores) s4.carnivores : ℚ) : ℝ),
        ((max (max (max (max s0.carnivores s1.carnivores) s2.carnivores) s3.carnivores) s4.carnivores : ℚ) : ℝ) ])))
  | _ => none

/-- The collapse label of `prepare_features` (lines 107-112): the
snapshot following a window is a collapse iff
`plants < 5 or herbivores == 0 or carnivores == 0`. -/
def collapseLabel (s : Snapshot) : Bool :=
  decide (s.plants < 5) || decide (s.herbivores = 0) || decide (s.carnivores = 0)

/-- Sequencing of optional results: models a loop in which each iteration
may raise — the first raising iteration aborts the whole loop. -/
def optList {α : Type} : List (Option α) → Option (List α)
  | [] => some []
  | none :: _ => none
  | some a :: rest => (optList rest).map (fun l => a :: l)

/-- `EcosystemPredictor.prepare_features` (lines 56-114): requires at
least 10 snapshots (else raises `ValueError`, modelled as `.error`);
then for each `i` in `[5, len)` — written here as `k = i - 5` ranging
over `[0, len - 5)` — builds the feature row of window
`data[i-5:i] = (data.drop k).take 5` and the collapse label of the
following snapshot `data[i] = data[k+5]`. -/
noncomputable def prepare_features (data : List Snapshot) :
    Except String (List (List ℝ) × List Bool) :=
  if data.length < 10 then
    .error ("Insufficient data for prediction (need at least 10 data points)")
  else
    match optList ((List.range (data.length - 5)).map
        (fun k => trainFeatureRow ((data.drop k).take 5))) with
    | none => .error ("ZeroDivisionError")
    | some rows =>
      .ok (rows, (List.range (data.length - 5)).map
        (fun k => collapseLabel (data.getD (k + 5) default)))

/-- The risk-result dict returned by both the classifier path and the
heuristic path of `predict_collapse_risk`. -/
structure RiskResult where
  risk : ℚ
  confidence : ℚ
  factors : List (String × ℚ)
  model_version : String
deriving DecidableEq

/-- `EcosystemPredictor._heuristic_collapse_prediction` (lines 253-292):
rule-based scorer over the most recent snapshot and the 3-point plant
trend; fails (in-band `success: false` dict, modelled `.error`) only on
an empty input. -/
def heuristicCollapsePrediction (recent : List Snapshot) : Except String RiskResult :=
  match recent.getLast? with
  | none => .error ("No data provided")
  | some latest =>
    let acc1 : ℚ × List (String × ℚ) :=
      if latest.plants < 10 then
        (0 + 0.4, [(("critically_low_plants"), (0.4 : ℚ))])
      else if latest.plants < 30 then
        (0 + 0.2, [(("low_plants"), (0.2 : ℚ))])
      else (0, [])
    let acc2 : ℚ × List (String × ℚ) :=
      if latest.herbivores < 3 then
        (acc1.1 + 0.3, acc1.2 ++ [(("critically_low_herbivores"), (0.3 : ℚ))])
      else acc1
    let acc3 : ℚ × List (String × ℚ) :=
      if latest.carnivores > latest.herbivores * 1.5 then
        (acc2.1 + 0.2, acc2.2 ++ [(("predator_overload"), (0.2 : ℚ))])
      else acc2
    let acc4 : ℚ × List (String × ℚ) :=
      if 3 ≤ recent.length then
        let recent_trend := recent.drop (recent.length - 3)
        let plant_trend : ℚ :=
          ((recent_trend.getLast?.getD default).plants
            - (recent_trend.head?.getD default).plants) / 3
        if plant_trend < -5 then
          (acc3.1 + 0.15, acc3.2 ++ [(("declining_plant_trend"), (0.15 : ℚ))])
        else acc3
      else acc3
    .ok { risk := min acc4.1 1, confidence := 0.6, factors := acc4.2,
          model_version := ("heuristic") }

/-- The resident scaler (`self.scalers['collapse']`): an opaque
scikit-learn object whose `transform` call may raise (stale shape, etc.),
so it is abstracted as a fallible function. -/
structure Scaler where
  transform : List ℝ → Except String (List ℝ)

/-- The resident classifier (`self.models['collapse']`): `predict_proba`
returns the class-probability pair `(P[no-collapse], P[collapse])` and may
raise; `feature_importances_` is a fixed global score list. -/
structure MLModel where
  predict_proba : List ℝ → Except String (ℚ × ℚ)
  feature_importances : List ℚ

/-- The in-memory model state of `EcosystemPredictor`: the `'collapse'`
entries of `self.models` and `self.scalers` (absent key = `none`). -/
structure Predictor where
  model : Option MLModel
  scaler : Option Scaler

/-- The 19 feature names of `predict_collapse_risk` (lines 230-236). -/
def feature_names : List String :=
  [("plants"), ("herbivores"), ("carnivores"), ("plant_trend"), ("herbivore_trend"),
   ("carnivore_trend"), ("plant_herb_ratio"), ("herb_carn_ratio"), ("carn_herb_ratio"),
   ("total_biomass"), ("plant_volatility"), ("herbivore_volatility"), ("carnivore_volatility"),
   ("min_plants"), ("max_plants"), ("min_herbivores"), ("max_herbivores"),
   ("min_carnivores"), ("max_carnivores")]

/-- The body of the `try` block of `predict_collapse_risk` after the
resident-model check (lines 181-247): length check, feature vector from
the last 5 snapshots, scaling, class probabilities, top-5 importance
factors (stable descending sort, as Python `sorted` with `reverse=True`),
`model_version = "1.0"`.  Any `.error` is the exception the enclosing
`except` catches. -/
noncomputable def classifier_attempt (p : Predictor) (m : MLModel)
    (recent : List Snapshot) : Except String RiskResult :=
  if recent.length < 5 then .error ("Need at least 5 recent data points")
  else
    match inferFeatureRow (recent.drop (recent.length - 5)) with
    | none => .error ("ZeroDivisionError")
    | some features =>
      match p.scaler with
      | none => .error ("KeyError: collapse")
      | some sc =>
        match sc.transform features with
        | .error e => .error e
        | .ok scaled =>
          match m.predict_proba scaled with
          | .error e => .error e
          | .ok probs =>
            .ok { risk := probs.2, confidence := max probs.1 probs.2,
                  factors := ((feature_names.zip m.feature_importances).mergeSort
                    (fun a b => decide (b.2 ≤ a.2))).take 5,
                  model_version := ("1.0") }

/-- `EcosystemPredictor.predict_collapse_risk` (lines 174-251): with no
resident model, delegate to the heuristic; otherwise run the classifier
attempt and, if it raises anything, fall back to the heuristic on the
same input.  The `steps_ahead` request parameter is accepted and unused,
as in the source. -/
noncomputable def predict_collapse_risk (p : Predictor) (recent : List Snapshot)
    (steps_ahead : ℕ) : Except String RiskResult :=
  match p.model with
  | none => heuristicCollapsePrediction recent
  | some m =>
    match classifier_attempt p m recent with
    | .ok r => .ok r
    | .error _ => heuristicCollapsePrediction recent

/-- The `POST /predict/collapse` handler `predict_collapse`
(lines 399-426), for a request whose body parsed: with no
`features.current` it answers `Invalid features format`; otherwise it
wraps the single current reading in a one-element snapshot list with
`step = 0` and calls `predict_collapse_risk`. -/
noncomputable def predict_collapse_route (p : Predictor)
    (current : Option (ℚ × ℚ × ℚ)) (steps : ℕ) : Except String RiskResult :=
  match current with
  | none => .error ("Invalid features format")
  | some c =>
    let recent_data : List Snapshot :=
      [{ step := 0, plants := c.1, herbivores := c.2.1, carnivores := c.2.2 }]
    predict_collapse_risk p recent_data steps

/-- Everything `train_collapse_predictor` computes between the 20-example
check and the model install: `train_test_split`, scaler fit, random
forest fit, the two accuracies and the report counts.  Opaque
third-party computation, abstracted as a fallible function of the
examples. -/
structure FitOutcome where
  model : MLModel
  scaler : Scaler
  train_accuracy : ℚ
  test_accuracy : ℚ
  training_samples : ℕ
  feature_count : ℕ

/-- External collaborators of training: the scikit-learn fitting stage
(lines 131-149) and the `joblib.dump` persistence calls (lines 156-157).
Both run inside the `try` block, so both may raise. -/
structure TrainEnv where
  split_scale_fit : List (List ℝ) → List Bool → Except String FitOutcome
  dump : MLModel → Scaler → Except String Unit

/-- The training report dict: `success`, and on success the accuracy and
size fields, on failure the error message. -/
structure TrainReport where
  success : Bool
  error : Option String
  model_type : Option String
  train_accuracy : Option ℚ
  test_accuracy : Option ℚ
  training_samples : Option ℕ
  features : Option ℕ

/-- The failure report `{"success": False, "error": e}`. -/
def failReport (e : String) : TrainReport :=
  { success := false, error := some e, model_type := none,
    train_accuracy := none, test_accuracy := none,
    training_samples := none, features := none }

/-- `train_collapse_predictor` from the point where both data checks have
passed (lines 131-168): fit; on success install the new pair as the
resident model (lines 152-153) and then persist it (lines 156-157).  A
fit exception is caught with the state untouched; a dump exception is
caught *after* the install, so the state keeps the new pair. -/
noncomputable def train_fit_stage (env : TrainEnv) (p : Predictor)
    (X : List (List ℝ)) (y : List Bool) : TrainReport × Predictor :=
  match env.split_scale_fit X y with
  | .error e => (failReport e, p)
  | .ok out =>
    let p' : Predictor := { model := some out.model, scaler := some out.scaler }
    match env.dump out.model out.scaler with
    | .error e => (failReport e, p')
    | .ok _ =>
      ({ success := true, error := none, model_type := some ("collapse_predictor"),
         train_accuracy := some out.train_accuracy,
         test_accuracy := some out.test_accuracy,
         training_samples := some out.training_samples,
         features := some out.feature_count }, p')

/-- `EcosystemPredictor.train_collapse_predictor` (lines 116-172),
returning the report together with the predictor state after the call:
`prepare_features` (its `ValueError` is caught and reported), the
20-example check with its historical "30 data points" message, then the
fit stage. -/
noncomputable def train_collapse_predictor (env : TrainEnv) (p : Predictor)
    (data : List Snapshot) : TrainReport × Predictor :=
  match prepare_features data with
  | .error e => (failReport e, p)
  | .ok xy =>
    if xy.1.length < 20 then
      (failReport ("Insufficient training data (need at least 30 data points)"), p)
    else train_fit_stage env p xy.1 xy.2

/-- Python `int(x)`: truncation toward zero. -/
def pyint (q : ℚ) : ℤ := if q < 0 then ⌈q⌉ else ⌊q⌋

/-- `np.random.normal(0, sigma)`: raises `ValueError` when the scale is
negative, otherwise produces a sample, abstracted here by the
caller-supplied draw. -/
def npNormal (draw : ℚ) (sigma : ℚ) : Option ℚ :=
  if sigma < 0 then none else some draw

/-- `np.polyfit(x, y, 1)` for `x = 0, 1, ..., n-1`: the ordinary
least-squares line, returned as (slope, intercept). -/
def polyfit1 (ys : List ℚ) : ℚ × ℚ :=
  let n : ℚ := (ys.length : ℚ)
  let xs : List ℚ := (List.range ys.length).map (fun i => (i : ℚ))
  let sx := xs.sum
  let sy := ys.sum
  let sxx := (xs.map (fun x => x * x)).sum
  let sxy := ((xs.zip ys).map (fun q => q.1 * q.2)).sum
  let slope := (n * sxy - sx * sy) / (n * sxx - sx * sx)
  (slope, (sy - slope * sx) / n)

/-- One row of the forecast list. -/
structure ForecastPoint where
  step : ℚ
  plants : ℤ
  herbivores : ℤ
  carnivores : ℤ
deriving DecidableEq

/-- The per-species trend labels. -/
structure Trends where
  plants : String
  herbivores : String
  carnivores : String
deriving DecidableEq

/-- The forecast response dict. -/
structure ForecastResult where
  predictions : List ForecastPoint
  confidence : ℚ
  trends : Trends
  forecast_horizon : ℕ
deriving DecidableEq

/-- The body of one iteration of the forecast loop of
`forecast_populations` (lines 306-334), for future step `s0 + 1` where
`s0` ranges over `0, ..., steps-1`: per-species OLS trend over the last
`min(10, len)` snapshots, extrapolation to index `len(window) + step - 1`,
additive noise of scale `0.1 * step * forecast` (a negative scale makes
`np.random.normal` raise), clamp to a non-negative `int`. -/
def forecastStep (noise : ℕ → ℚ × ℚ × ℚ) (data : List Snapshot) (s0 : ℕ) :
    Option ForecastPoint :=
  let step : ℚ := (s0 : ℚ) + 1
  let recent_points := min 10 data.length
  let recent := data.drop (data.length - recent_points)
  let plant_coef := polyfit1 (recent.map (fun d => d.plants))
  let plant_forecast := plant_coef.1 * ((recent.length : ℚ) + step - 1) + plant_coef.2
  let herb_coef := polyfit1 (recent.map (fun d => d.herbivores))
  let herb_forecast := herb_coef.1 * ((recent.length : ℚ) + step - 1) + herb_coef.2
  let carn_coef := polyfit1 (recent.map (fun d => d.carnivores))
  let carn_forecast := carn_coef.1 * ((recent.length : ℚ) + step - 1) + carn_coef.2
  let noise_factor : ℚ := (1 / 10) * step
  (npNormal (noise s0).1 (noise_factor * plant_forecast)).bind (fun n1 =>
  (npNormal (noise s0).2.1 (noise_factor * herb_forecast)).bind (fun n2 =>
  (npNormal (noise s0).2.2 (noise_factor * carn_forecast)).bind (fun n3 =>
  some { step := (data.getLast?.getD default).step + step,
         plants := max 0 (pyint (plant_forecast + n1)),
         herbivores := max 0 (pyint (herb_forecast + n2)),
         carnivores := max 0 (pyint (carn_forecast + n3)) })))

/-- The trend label of `forecast_populations` (lines 347-354): slope of
the OLS line over the last 5 values; `> 2` increasing, `< -2` decreasing,
otherwise the initial "stable". -/
def trendLabel (vals : List ℚ) : String :=
  let trend_slope := (polyfit1 vals).1
  if trend_slope > 2 then ("increasing")
  else if trend_slope < -2 then ("decreasing")
  else ("stable")

/-- `EcosystemPredictor.forecast_populations` (lines 294-366): length
check (`ValueError` caught into `{"success": false}`), the forecast loop
(any raise inside the `try`, e.g. a negative noise scale, is caught the
same way), `confidence = 0.8 * 0.9 ** steps`, and the per-species trend
labels over the last 5 snapshots.  `noise` abstracts the stream of
`np.random.normal` samples, one triple per loop iteration. -/
def forecast_populations (noise : ℕ → ℚ × ℚ × ℚ) (data : List Snapshot)
    (steps : ℕ) : Except String ForecastResult :=
  if data.length < 5 then
    .error ("Need at least 5 data points for forecasting")
  else
    match optList ((List.range steps).map (forecastStep noise data)) with
    | none => .error ("ValueError: scale < 0")
    | some forecasts =>
      let base_confidence : ℚ := 8 / 10
      let confidence : ℚ := base_confidence * (9 / 10) ^ steps
      let trends : Trends :=
        if 5 ≤ data.length then
          let recent_5 := data.drop (data.length - 5)
          { plants := trendLabel (recent_5.map (fun d => d.plants)),
            herbivores := trendLabel (recent_5.map (fun d => d.herbivores)),
            carnivores := trendLabel (recent_5.map (fun d => d.carnivores)) }
        else { plants := ("stable"), herbivores := ("stable"), carnivores := ("stable") }
      .ok { predictions := forecasts, confidence := confidence,
            trends := trends, forecast_horizon := steps }

/-- Predictor state with no resident model (`'collapse' not in self.models`). -/
def emptyPredictor : Predictor := { model := none, scaler := none }

/-- A concrete opaque classifier value, for closed instances. -/
def cexModel : MLModel :=
  { predict_proba := fun _ => .ok (1, 0), feature_importances := [] }

/-- A concrete opaque scaler value, for closed instances. -/
def cexScaler : Scaler := { transform := fun l => .ok l }

/-- A training environment whose fitting stage succeeds but whose
persistence step (`joblib.dump`) raises, e.g. on a full disk. -/
def cexDumpFailEnv : TrainEnv :=
  { split_scale_fit := fun X _ =>
      .ok { model := cexModel, scaler := cexScaler, train_accuracy := 1,
            test_accuracy := 1, training_samples := X.length, feature_count := 19 },
    dump := fun _ _ => .error ("disk full") }

/-- A flat 25-snapshot history (steps 0-24, constant populations). -/
def flatHistory25 : List Snapshot :=
  (List.range 25).map (fun k => { step := (k : ℚ), plants := 50, herbivores := 10, carnivores := 5 })

/-- A flat 10-snapshot history (steps 0-9, constant populations). -/
def flatHistory10 : List Snapshot :=
  (List.range 10).map (fun k => { step := (k : ℚ), plants := 50, herbivores := 10, carnivores := 5 })

/-- A flat 5-snapshot history (steps 0-4), the spec §8 forecast example. -/
def flatHistory5 : List Snapshot :=
  (List.range 5).map (fun k => { step := (k : ℚ), plants := 50, herbivores := 10, carnivores := 5 })

/-- The all-zero realisation of the noise stream. -/
def noiseZero : ℕ → ℚ × ℚ × ℚ := fun _ => (0, 0, 0)

/-! ## Helper lemmas -/

theorem max_one_ne_zero (q : ℚ) : max q 1 ≠ 0 := by
  intro h
  have h1 : (1 : ℚ) ≤ max q 1 := le_max_right q 1
  rw [h] at h1
  exact absurd h1 (by norm_num)

theorem pydiv_max_one (a b : ℚ) : pydiv a (max b 1) = some (a / max b 1) := by
  unfold pydiv
  rw [if_neg (max_one_ne_zero b)]

theorem trainFeatureRow_eq (s0 s1 s2 s3 s4 : Snapshot) :
    trainFeatureRow [s0, s1, s2, s3, s4] = some (featureList s0 s1 s2 s3 s4) := by
  show (pydiv s4.plants (max s4.herbivores 1)).bind _ = _
  simp only [pydiv_max_one, Option.some_bind]
  rfl

theorem inferFeatureRow_eq (s0 s1 s2 s3 s4 : Snapshot) :
    inferFeatureRow [s0, s1, s2, s3, s4] = some (featureList s0 s1 s2 s3 s4) := by
  show (pydiv s4.plants (max s4.herbivores 1)).bind _ = _
  simp only [pydiv_max_one, Option.some_bind]
  simp only [featureList, List.sum_cons, List.sum_nil, add_zero, Option.some.injEq,
    List.cons.injEq, and_true, true_and]
  push_cast
  ring

/-! ## Claim theorems -/

/-- C1: for every window of exactly 5 snapshots, feature extraction
returns exactly 19 numeric values in the fixed order of spec §4.1 —
three current populations; three per-species rates of change
`(last - first) / 5`; the ratios `plants / max(herbivores, 1)`,
`herbivores / max(carnivores, 1)`, `carnivores / max(herbivores, 1)`;
total biomass; three per-species population standard deviations with
`ddof = 0`; then min/max per species — and re-running extraction on the
same window yields the same output every call (the function is pure, so
determinism is definitional). -/
theorem extract_returns_19_ordered_values (s0 s1 s2 s3 s4 : Snapshot) :
    trainFeatureRow [s0, s1, s2, s3, s4] = some
      [ ((s4.plants : ℚ) : ℝ),
        ((s4.herbivores : ℚ) : ℝ),
        ((s4.carnivores : ℚ) : ℝ),
        (((s4.plants - s0.plants) / 5 : ℚ) : ℝ),
        (((s4.herbivores - s0.herbivores) / 5 : ℚ) : ℝ),
        (((s4.carnivores - s0.carnivores) / 5 : ℚ) : ℝ),
        ((s4.plants / max s4.herbivores 1 : ℚ) : ℝ),
        ((s4.herbivores / max s4.carnivores 1 : ℚ) : ℝ),
        ((s4.carnivores / max s4.herbivores 1 : ℚ) : ℝ),
        ((s4.plants + s4.herbivores + s4.carnivores : ℚ) : ℝ),
        npStd [s0.plants, s1.plants, s2.plants, s3.plants, s4.plants],
        npStd [s0.herbivores, s1.herbivores, s2.herbivores, s3.herbivores, s4.herbivores],
        npStd [s0.carnivores, s1.carnivores, s2.carnivores, s3.carnivores, s4.carnivores],
        ((min (min (min (min s0.plants s1.plants) s2.plants) s3.plants) s4.plants : ℚ) : ℝ),
        ((max (max (max (max s0.plants s1.plants) s2.plants) s3.plants) s4.plants : ℚ) : ℝ),
        ((min (min (min (min s0.herbivores s1.herbivores) s2.herbivores) s3.herbivores) s4.herbivores : ℚ) : ℝ),
        ((max (max (max (max s0.herbivores s1.herbivores) s2.herbivores) s3.herbivores) s4.herbivores : ℚ) : ℝ),
        ((min (min (min (min s0.carnivores s1.carnivores) s2.carnivores) s3.carnivores) s4.carnivores : ℚ) : ℝ),
        ((max (max (max (max s0.carnivores s1.carnivores) s2.carnivores) s3.carnivores) s4.carnivores : ℚ) : ℝ) ]
    ∧ (∃ l, trainFeatureRow [s0, s1, s2, s3, s4] = some l ∧ l.length = 19)
    ∧ trainFeatureRow [s0, s1, s2, s3, s4] = trainFeatureRow [s0, s1, s2, s3, s4] := by
  refine ⟨trainFeatureRow_eq s0 s1 s2 s3 s4, ⟨_, trainFeatureRow_eq s0 s1 s2 s3 s4, rfl⟩, rfl⟩

/-- C2: the feature vector built by the training pipeline (the rolling
window loop inside `prepare_features`) is exactly equal, value for value
in the same order, to the feature vector built by the inference pipeline
(the single-window construction inside `predict_collapse_risk`), on
every window — both transcriptions compute the same `Option`-valued
result on every list of snapshots. -/
theorem train_infer_feature_vectors_eq (w : List Snapshot) :
    inferFeatureRow w = trainFeatureRow w := by
  match w with
  | [] => rfl
  | [_] => rfl
  | [_, _] => rfl
  | [_, _, _] => rfl
  | [_, _, _, _] => rfl
  | [s0, s1, s2, s3, s4] =>
    rw [trainFeatureRow_eq, inferFeatureRow_eq]
  | _ :: _ :: _ :: _ :: _ :: _ :: _ => rfl

/-- C8: on every window of 5 snapshots — including those with zero (or
even negative) current herbivore or carnivore counts — the three ratio
features never divide by zero, because each denominator is floored at 1
by `max(_, 1)`; consequently both extraction functions are total (return
`some`) on all such windows. -/
theorem ratio_denominators_safe (s0 s1 s2 s3 s4 : Snapshot) :
    max s4.herbivores 1 ≠ 0
    ∧ max s4.carnivores 1 ≠ 0
    ∧ pydiv s4.plants (max s4.herbivores 1) = some (s4.plants / max s4.herbivores 1)
    ∧ pydiv s4.herbivores (max s4.carnivores 1) = some (s4.herbivores / max s4.carnivores 1)
    ∧ pydiv s4.carnivores (max s4.herbivores 1) = some (s4.carnivores / max s4.herbivores 1)
    ∧ (trainFeatureRow [s0, s1, s2, s3, s4]).isSome = true
    ∧ (inferFeatureRow [s0, s1, s2, s3, s4]).isSome = true := by
  refine ⟨max_one_ne_zero _, max_one_ne_zero _, pydiv_max_one _ _, pydiv_max_one _ _,
    pydiv_max_one _ _, ?_, ?_⟩
  · rw [trainFeatureRow_eq]
    rfl
  · rw [inferFeatureRow_eq]
    rfl

theorem optList_map_some {α β : Type} (l : List α) (f : α → Option β) (g : α → β)
    (h : ∀ x ∈ l, f x = some (g x)) : optList (l.map f) = some (l.map g) := by
  induction l with
  | nil => rfl
  | cons a t ih =>
    have ha : f a = some (g a) := h a (List.mem_cons_self a t)
    have ht : optList (t.map f) = some (t.map g) :=
      ih (fun x hx => h x (List.mem_cons_of_mem a hx))
    simp [optList, ha, ht]

theorem drop_take_window (k : ℕ) (data : List Snapshot) (h : k + 5 ≤ data.length) :
    (data.drop k).take 5 =
      [data.getD k default, data.getD (k + 1) default, data.getD (k + 2) default,
       data.getD (k + 3) default, data.getD (k + 4) default] := by
  induction k generalizing data with
  | zero =>
    match data, h with
    | a :: b :: c :: d :: e :: rest, _ => rfl
  | succ k ih =>
    match data, h with
    | a :: rest, h =>
      have h' : k + 5 ≤ rest.length := by
        simp only [List.length_cons] at h
        omega
      simp only [List.drop_succ_cons, ih rest h', List.getD_cons_succ]

/-- With at least 10 snapshots, `prepare_features` succeeds and returns
one feature row per window together with the labels of the snapshots
following each window. -/
theorem prepare_features_ok (data : List Snapshot) (h : 10 ≤ data.length) :
    prepare_features data = .ok
      ((List.range (data.length - 5)).map (fun k =>
        featureList (data.getD k default) (data.getD (k + 1) default)
          (data.getD (k + 2) default) (data.getD (k + 3) default)
          (data.getD (k + 4) default)),
       (List.range (data.length - 5)).map (fun k =>
        collapseLabel (data.getD (k + 5) default))) := by
  have hrows : optList ((List.range (data.length - 5)).map
      (fun k => trainFeatureRow ((data.drop k).take 5))) = some
      ((List.range (data.length - 5)).map (fun k =>
        featureList (data.getD k default) (data.getD (k + 1) default)
          (data.getD (k + 2) default) (data.getD (k + 3) default)
          (data.getD (k + 4) default))) := by
    apply optList_map_some
    intro k hk
    have hk5 : k + 5 ≤ data.length := by
      have := List.mem_range.mp hk
      omega
    rw [drop_take_window k data hk5, trainFeatureRow_eq]
  unfold prepare_features
  rw [if_neg (by omega), hrows]

/-- C3: the collapse label is true iff `plants < 5` or `herbivores = 0`
or `carnivores = 0`; the snapshot with plants 4 (herbivores and
carnivores 1) is labeled collapse while plants 5 is not; and during
training the label paired with window `history[i-5:i]` (here `i = k + 5`)
is computed from the following snapshot `history[i]`. -/
theorem collapse_label_rule :
    (∀ s : Snapshot, collapseLabel s = true ↔
      (s.plants < 5 ∨ s.herbivores = 0 ∨ s.carnivores = 0))
    ∧ collapseLabel { step := 0, plants := 4, herbivores := 1, carnivores := 1 } = true
    ∧ collapseLabel { step := 0, plants := 5, herbivores := 1, carnivores := 1 } = false
    ∧ ∀ data : List Snapshot, 10 ≤ data.length →
        ∃ X, prepare_features data = .ok
          (X, (List.range (data.length - 5)).map (fun k =>
            collapseLabel (data.getD (k + 5) default))) := by
  refine ⟨?_, by decide, by decide, ?_⟩
  · intro s
    simp [collapseLabel]
    tauto
  · intro data h
    exact ⟨_, prepare_features_ok data h⟩

/-- C3 witness: on the flat 10-snapshot history every training label is
false (no collapse follows any window). -/
theorem collapse_label_rule_witness :
    ∃ X, prepare_features flatHistory10 =
      .ok (X, [false, false, false, false, false]) := by
  obtain ⟨X, hX⟩ := collapse_label_rule.2.2.2 flatHistory10 (by decide)
  refine ⟨X, ?_⟩
  rw [hX]
  have hl : (List.range (flatHistory10.length - 5)).map (fun k =>
      collapseLabel (flatHistory10.getD (k + 5) default)) =
      [false, false, false, false, false] := by decide
  rw [hl]


set_option maxHeartbeats 1600000 in
/-- The heuristic estimator computed in closed form: on any sequence with
last element `latest`, the sequentially accumulated risk equals the
clamped sum of the independent rule weights and the factor list is the
concatenation of the triggered rules in evaluation order. -/
theorem heuristic_spec (recent : List Snapshot) (latest : Snapshot)
    (hl : recent.getLast? = some latest) :
    heuristicCollapsePrediction recent = .ok
      { risk := min
          ((if latest.plants < 10 then (0.4 : ℚ)
            else if latest.plants < 30 then 0.2 else 0)
           + (if latest.herbivores < 3 then (0.3 : ℚ) else 0)
           + (if latest.carnivores > latest.herbivores * 1.5 then (0.2 : ℚ) else 0)
           + (if 3 ≤ recent.length then
                (if (((recent.drop (recent.length - 3)).getLast?.getD default).plants
                    - ((recent.drop (recent.length - 3)).head?.getD default).plants) / 3 < -5
                 then (0.15 : ℚ) else 0) else 0)) 1,
        confidence := 0.6,
        factors :=
          (if latest.plants < 10 then [(("critically_low_plants"), (0.4 : ℚ))]
           else if latest.plants < 30 then [(("low_plants"), (0.2 : ℚ))] else [])
          ++ (if latest.herbivores < 3 then [(("critically_low_herbivores"), (0.3 : ℚ))] else [])
          ++ (if latest.carnivores > latest.herbivores * 1.5 then [(("predator_overload"), (0.2 : ℚ))] else [])
          ++ (if 3 ≤ recent.length then
                (if (((recent.drop (recent.length - 3)).getLast?.getD default).plants
                    - ((recent.drop (recent.length - 3)).head?.getD default).plants) / 3 < -5
                 then [(("declining_plant_trend"), (0.15 : ℚ))] else []) else []),
        model_version := ("heuristic") } := by
  simp only [heuristicCollapsePrediction, hl]
  rw [Except.ok.injEq, RiskResult.mk.injEq]
  refine ⟨?_, rfl, ?_, rfl⟩
  · congr 1
    split_ifs <;> simp_all
  · split_ifs <;> simp_all

/-- C4: with no resident model, on every non-empty snapshot sequence the
heuristic estimator returns risk equal to the sum of the triggered rule
weights (plants rules 0.4/0.2 mutually exclusive, first match wins;
herbivores < 3 adds 0.3; carnivores > herbivores * 1.5 adds 0.2; with at
least 3 snapshots a 3-step plant trend below -5 adds 0.15) clamped at 1,
confidence exactly 0.6, model_version "heuristic", and the triggered
rules in evaluation order as factors; in particular the single snapshot
`plants 8, herbivores 2, carnivores 5` yields risk 0.9. -/
theorem heuristic_risk_sum :
    (∀ recent : List Snapshot, recent ≠ [] →
      ∃ latest, recent.getLast? = some latest ∧
      ∃ r, heuristicCollapsePrediction recent = .ok r ∧
        r.risk = min
          ((if latest.plants < 10 then (0.4 : ℚ)
            else if latest.plants < 30 then 0.2 else 0)
           + (if latest.herbivores < 3 then (0.3 : ℚ) else 0)
           + (if latest.carnivores > latest.herbivores * 1.5 then (0.2 : ℚ) else 0)
           + (if 3 ≤ recent.length then
                (if (((recent.drop (recent.length - 3)).getLast?.getD default).plants
                    - ((recent.drop (recent.length - 3)).head?.getD default).plants) / 3 < -5
                 then (0.15 : ℚ) else 0) else 0)) 1
        ∧ r.confidence = 0.6
        ∧ r.model_version = ("heuristic")
        ∧ r.factors =
            (if latest.plants < 10 then [(("critically_low_plants"), (0.4 : ℚ))]
             else if latest.plants < 30 then [(("low_plants"), (0.2 : ℚ))] else [])
            ++ (if latest.herbivores < 3 then [(("critically_low_herbivores"), (0.3 : ℚ))] else [])
            ++ (if latest.carnivores > latest.herbivores * 1.5 then [(("predator_overload"), (0.2 : ℚ))] else [])
            ++ (if 3 ≤ recent.length then
                  (if (((recent.drop (recent.length - 3)).getLast?.getD default).plants
                      - ((recent.drop (recent.length - 3)).head?.getD default).plants) / 3 < -5
                   then [(("declining_plant_trend"), (0.15 : ℚ))] else []) else []))
    ∧ (∃ r, heuristicCollapsePrediction
          [{ step := 0, plants := 8, herbivores := 2, carnivores := 5 }] = .ok r
        ∧ r.risk = 0.9 ∧ r.confidence = 0.6 ∧ r.model_version = ("heuristic")) := by
  constructor
  · intro recent hne
    rcases hl : recent.getLast? with _ | latest
    · exact absurd (List.getLast?_eq_none_iff.mp hl) hne
    exact ⟨latest, rfl, _, heuristic_spec recent latest hl, rfl, rfl, rfl, rfl⟩
  · refine ⟨_, heuristic_spec _ { step := 0, plants := 8, herbivores := 2, carnivores := 5 } rfl,
      ?_, rfl, rfl⟩
    norm_num

/-- C4 witness: instantiating the quantified part at the concrete
single-snapshot input of the claim. -/
theorem heuristic_risk_sum_witness :
    ∃ latest, List.getLast?
        [{ step := 0, plants := 8, herbivores := 2, carnivores := 5 : Snapshot }] = some latest ∧
      ∃ r, heuristicCollapsePrediction
          [{ step := 0, plants := 8, herbivores := 2, carnivores := 5 }] = .ok r ∧
        r.risk = min
          ((if latest.plants < 10 then (0.4 : ℚ)
            else if latest.plants < 30 then 0.2 else 0)
           + (if latest.herbivores < 3 then (0.3 : ℚ) else 0)
           + (if latest.carnivores > latest.herbivores * 1.5 then (0.2 : ℚ) else 0)
           + (if 3 ≤ List.length [{ step := 0, plants := 8, herbivores := 2, carnivores := 5 : Snapshot }] then
                (if (((List.drop (List.length [{ step := 0, plants := 8, herbivores := 2, carnivores := 5 : Snapshot }] - 3)
                        [{ step := 0, plants := 8, herbivores := 2, carnivores := 5 : Snapshot }]).getLast?.getD default).plants
                    - ((List.drop (List.length [{ step := 0, plants := 8, herbivores := 2, carnivores := 5 : Snapshot }] - 3)
                        [{ step := 0, plants := 8, herbivores := 2, carnivores := 5 : Snapshot }]).head?.getD default).plants) / 3 < -5
                 then (0.15 : ℚ) else 0) else 0)) 1
        ∧ r.confidence = 0.6
        ∧ r.model_version = ("heuristic") :=
  match heuristic_risk_sum.1
      [{ step := 0, plants := 8, herbivores := 2, carnivores := 5 }] (by decide) with
  | ⟨latest, hl, r, hr, hrisk, hconf, hver, _⟩ => ⟨latest, hl, r, hr, hrisk, hconf, hver⟩

theorem heuristic_ok (recent : List Snapshot) (hne : recent ≠ []) :
    ∃ r, heuristicCollapsePrediction recent = .ok r
      ∧ r.model_version = ("heuristic") := by
  rcases hl : recent.getLast? with _ | latest
  · exact absurd (List.getLast?_eq_none_iff.mp hl) hne
  exact ⟨_, heuristic_spec recent latest hl, rfl⟩

theorem heuristic_version (recent : List Snapshot) (r : RiskResult)
    (h : heuristicCollapsePrediction recent = .ok r) :
    r.model_version = ("heuristic") := by
  rcases hl : recent.getLast? with _ | latest
  · rw [heuristicCollapsePrediction, hl] at h
    cases h
  · rw [heuristic_spec recent latest hl] at h
    cases h
    rfl

/-- C5: `predict_collapse_risk` is a total function of its input — in
this embedding every Python exception is an `.error` value and the
top-level result type carries no exception, so no input makes it raise.
With no resident model it returns the heuristic result; when the
classifier attempt raises anything (which includes every input of fewer
than 5 snapshots, scaling errors and prediction errors) it also returns
the heuristic result on the same input; and a result carrying
model_version "1.0" can only come from a successful classifier attempt. -/
theorem predict_never_raises_fallback (p : Predictor) (recent : List Snapshot)
    (steps_ahead : ℕ) :
    (p.model = none →
      predict_collapse_risk p recent steps_ahead = heuristicCollapsePrediction recent)
    ∧ (∀ m e, p.model = some m → classifier_attempt p m recent = .error e →
        predict_collapse_risk p recent steps_ahead = heuristicCollapsePrediction recent)
    ∧ (recent.length < 5 →
        predict_collapse_risk p recent steps_ahead = heuristicCollapsePrediction recent)
    ∧ (∀ r, predict_collapse_risk p recent steps_ahead = .ok r →
        r.model_version = ("1.0") →
        ∃ m, p.model = some m ∧ classifier_attempt p m recent = .ok r) := by
  refine ⟨?_, ?_, ?_, ?_⟩
  · intro h
    rw [predict_collapse_risk, h]
  · intro m e hm he
    simp only [predict_collapse_risk, hm, he]
  · intro hlen
    rcases hp : p.model with _ | m
    · rw [predict_collapse_risk, hp]
    · have ha : classifier_attempt p m recent =
          .error ("Need at least 5 recent data points") := by
        unfold classifier_attempt
        rw [if_pos hlen]
      simp only [predict_collapse_risk, hp, ha]
  · intro r hok hv
    rcases hp : p.model with _ | m
    · rw [predict_collapse_risk, hp] at hok
      rw [heuristic_version recent r hok] at hv
      exact absurd hv (by decide)
    · rcases ha : classifier_attempt p m recent with e | r'
      · simp only [predict_collapse_risk, hp, ha] at hok
        rw [heuristic_version recent r hok] at hv
        exact absurd hv (by decide)
      · simp only [predict_collapse_risk, hp, ha] at hok
        cases hok
        exact ⟨m, rfl, ha⟩

/-- C5 witness: with no resident model and the empty input, the
prediction is exactly the heuristic result. -/
theorem predict_never_raises_fallback_witness :
    predict_collapse_risk emptyPredictor [] 5 = heuristicCollapsePrediction [] :=
  (predict_never_raises_fallback emptyPredictor [] 5).1 rfl

/-- C10: for every well-formed `features.current` body, the
`POST /predict/collapse` handler builds a single-snapshot list, so the
classifier attempt (which needs 5 snapshots) always raises and the
result is always the heuristic result — model_version "heuristic",
never "1.0" — even when a trained classifier and scaler are resident. -/
theorem predict_collapse_route_always_heuristic (p : Predictor)
    (pl h c : ℚ) (steps : ℕ) :
    predict_collapse_route p (some (pl, h, c)) steps =
      heuristicCollapsePrediction [{ step := 0, plants := pl, herbivores := h, carnivores := c }]
    ∧ ∃ r, predict_collapse_route p (some (pl, h, c)) steps = .ok r
        ∧ r.model_version = ("heuristic")
        ∧ r.model_version ≠ ("1.0") := by
  have hroute : predict_collapse_route p (some (pl, h, c)) steps =
      predict_collapse_risk p
        [{ step := 0, plants := pl, herbivores := h, carnivores := c }] steps := rfl
  have hlen : List.length
      [{ step := 0, plants := pl, herbivores := h, carnivores := c : Snapshot }] < 5 := by
    simp only [List.length_singleton]
    omega
  have hfall := (predict_never_raises_fallback p
      [{ step := 0, plants := pl, herbivores := h, carnivores := c }] steps).2.2.1 hlen
  obtain ⟨r, hr, hver⟩ := heuristic_ok
      [{ step := 0, plants := pl, herbivores := h, carnivores := c }] (by simp)
  refine ⟨hroute.trans hfall, r, ?_, hver, ?_⟩
  · rw [hroute, hfall, hr]
  · rw [hver]
    decide

/-- C6: training on fewer than 10 snapshots returns (never raises) the
insufficient-data failure report; a history of length in `[10, 25)`
produces `length - 5` examples, fails the 20-example check and returns a
failure whose message contains the literal text
"need at least 30 data points"; a history of length at least 25 passes
both checks and proceeds to the fitting stage. -/
theorem train_data_thresholds (env : TrainEnv) (p : Predictor)
    (data : List Snapshot) :
    (data.length < 10 →
      train_collapse_predictor env p data =
        (failReport ("Insufficient data for prediction (need at least 10 data points)"), p))
    ∧ (10 ≤ data.length → data.length < 25 →
        ∃ X y, prepare_features data = .ok (X, y)
          ∧ X.length = data.length - 5
          ∧ train_collapse_predictor env p data =
              (failReport ("Insufficient training data (need at least 30 data points)"), p)
          ∧ ("Insufficient training data (need at least 30 data points)"
              = ("Insufficient training data (") ++ ("need at least 30 data points") ++ (")")))
    ∧ (25 ≤ data.length →
        ∃ X y, prepare_features data = .ok (X, y)
          ∧ X.length = data.length - 5
          ∧ ¬ X.length < 20
          ∧ train_collapse_predictor env p data = train_fit_stage env p X y) := by
  refine ⟨?_, ?_, ?_⟩
  · intro h
    have hpf : prepare_features data =
        .error ("Insufficient data for prediction (need at least 10 data points)") := by
      unfold prepare_features
      rw [if_pos h]
    rw [train_collapse_predictor, hpf]
  · intro h10 h25
    refine ⟨_, _, prepare_features_ok data h10, by simp, ?_, rfl⟩
    rw [train_collapse_predictor, prepare_features_ok data h10]
    have hlt : ((List.range (data.length - 5)).map (fun k =>
        featureList (data.getD k default) (data.getD (k + 1) default)
          (data.getD (k + 2) default) (data.getD (k + 3) default)
          (data.getD (k + 4) default))).length < 20 := by
      simp
      omega
    simp only [hlt, if_pos, if_true]
  · intro h25
    have h10 : 10 ≤ data.length := by omega
    refine ⟨_, _, prepare_features_ok data h10, by simp, ?_, ?_⟩
    · simp
      omega
    · rw [train_collapse_predictor, prepare_features_ok data h10]
      have hge : ¬ ((List.range (data.length - 5)).map (fun k =>
          featureList (data.getD k default) (data.getD (k + 1) default)
            (data.getD (k + 2) default) (data.getD (k + 3) default)
            (data.getD (k + 4) default))).length < 20 := by
        simp
        omega
      simp only [hge, if_neg, if_false]

/-- C6 witness: the short-history branch at the empty history, and the
middle branch at the flat 10-snapshot history. -/
theorem train_data_thresholds_witness :
    (train_collapse_predictor cexDumpFailEnv emptyPredictor [] =
      (failReport ("Insufficient data for prediction (need at least 10 data points)"),
       emptyPredictor))
    ∧ ∃ X y, prepare_features flatHistory10 = .ok (X, y)
        ∧ X.length = flatHistory10.length - 5
        ∧ train_collapse_predictor cexDumpFailEnv emptyPredictor flatHistory10 =
            (failReport ("Insufficient training data (need at least 30 data points)"),
             emptyPredictor) := by
  constructor
  · exact (train_data_thresholds cexDumpFailEnv emptyPredictor []).1 (by decide)
  · obtain ⟨X, y, h1, h2, h3, _⟩ :=
      (train_data_thresholds cexDumpFailEnv emptyPredictor flatHistory10).2.1
        (by decide) (by decide)
    exact ⟨X, y, h1, h2, h3⟩

/-- C7 counterexample: the claim "whenever training returns a failure
report the resident model state is unchanged" is false.  With a
25-snapshot history the data checks pass and the fit succeeds; the
source then installs the new pair (lines 152-153) *before* persisting it
(lines 156-157), so when `joblib.dump` raises, the `except` block
returns a failure report while the resident state already holds the new
pair: starting from no resident model, the call reports failure yet the
state is no longer the initial one. -/
theorem train_failure_mutates_state_cex :
    (train_collapse_predictor cexDumpFailEnv emptyPredictor flatHistory25).1.success = false
    ∧ (train_collapse_predictor cexDumpFailEnv emptyPredictor flatHistory25).2 ≠ emptyPredictor := by
  have h10 : 10 ≤ flatHistory25.length := by decide
  have htr : train_collapse_predictor cexDumpFailEnv emptyPredictor flatHistory25 =
      (failReport ("disk full"),
       { model := some cexModel, scaler := some cexScaler }) := by
    rw [train_collapse_predictor, prepare_features_ok flatHistory25 h10]
    have hge : ¬ ((List.range (flatHistory25.length - 5)).map (fun k =>
        featureList (flatHistory25.getD k default) (flatHistory25.getD (k + 1) default)
          (flatHistory25.getD (k + 2) default) (flatHistory25.getD (k + 3) default)
          (flatHistory25.getD (k + 4) default))).length < 20 := by
      simp
      decide
    simp only [hge, if_neg, if_false]
    rfl
  rw [htr]
  refine ⟨rfl, ?_⟩
  intro heq
  have hm := congrArg Predictor.model heq
  simp [emptyPredictor] at hm

/-- C7 amended: whenever `train_collapse_predictor` returns a failure
report, either the resident state is exactly what it was before the call
(both data checks and fitting failures, which all occur before the
install), or the failure arose in the persistence step after a
successful fit, in which case the state holds the freshly fitted pair. -/
theorem train_failure_state_amended (env : TrainEnv) (p : Predictor)
    (data : List Snapshot)
    (hfail : (train_collapse_predictor env p data).1.success = false) :
    (train_collapse_predictor env p data).2 = p
    ∨ ∃ X y out e, prepare_features data = .ok (X, y)
        ∧ ¬ X.length < 20
        ∧ env.split_scale_fit X y = .ok out
        ∧ env.dump out.model out.scaler = .error e
        ∧ (train_collapse_predictor env p data).2 =
            { model := some out.model, scaler := some out.scaler } := by
  rcases hpf : prepare_features data with e | xy
  · left
    rw [train_collapse_predictor, hpf]
  · by_cases hX : xy.1.length < 20
    · left
      rw [train_collapse_predictor, hpf]
      simp only [hX, if_true]
    · rcases hfit : env.split_scale_fit xy.1 xy.2 with e | out
      · left
        rw [train_collapse_predictor, hpf]
        simp only [hX, if_false, train_fit_stage, hfit]
      · rcases hdump : env.dump out.model out.scaler with e | u
        · right
          refine ⟨xy.1, xy.2, out, e, rfl, hX, hfit, hdump, ?_⟩
          · rw [train_collapse_predictor, hpf]
            simp only [hX, if_false, train_fit_stage, hfit, hdump]
        · exfalso
          rw [train_collapse_predictor, hpf] at hfail
          simp only [hX, if_false, train_fit_stage, hfit, hdump] at hfail
          exact absurd hfail (by decide)

/-- C7 witness for the amended theorem: a failing call (empty history)
leaves the state unchanged. -/
theorem train_failure_state_amended_witness :
    (train_collapse_predictor cexDumpFailEnv emptyPredictor []).2 = emptyPredictor
    ∨ ∃ X y out e, prepare_features [] = .ok (X, y)
        ∧ ¬ X.length < 20
        ∧ cexDumpFailEnv.split_scale_fit X y = .ok out
        ∧ cexDumpFailEnv.dump out.model out.scaler = .error e
        ∧ (train_collapse_predictor cexDumpFailEnv emptyPredictor []).2 =
            { model := some out.model, scaler := some out.scaler } :=
  train_failure_state_amended cexDumpFailEnv emptyPredictor [] rfl

theorem forecast_confidence (noise : ℕ → ℚ × ℚ × ℚ) (data : List Snapshot)
    (steps : ℕ) (r : ForecastResult)
    (h : forecast_populations noise data steps = .ok r) :
    r.confidence = (8 / 10 : ℚ) * (9 / 10) ^ steps := by
  unfold forecast_populations at h
  by_cases h5 : data.length < 5
  · rw [if_pos h5] at h
    cases h
  · rw [if_neg h5] at h
    rcases hopt : optList ((List.range steps).map (forecastStep noise data)) with _ | fcs
    · rw [hopt] at h
      cases h
    · rw [hopt] at h
      cases h
      rfl

/-- C9: every successful forecast with horizon `steps` reports confidence
exactly `0.8 * 0.9 ^ steps`; the confidence does not depend on the input
history (or the noise realisation), and it is strictly decreasing in the
horizon. -/
theorem forecast_confidence_formula :
    (∀ noise data steps r,
        forecast_populations noise data steps = .ok r →
        r.confidence = (8 / 10 : ℚ) * (9 / 10) ^ steps)
    ∧ (∀ noise data noise2 data2 steps r r2,
        forecast_populations noise data steps = .ok r →
        forecast_populations noise2 data2 steps = .ok r2 →
        r.confidence = r2.confidence)
    ∧ (∀ noise data noise2 data2 s t r r2,
        forecast_populations noise data s = .ok r →
        forecast_populations noise2 data2 t = .ok r2 →
        s < t → r2.confidence < r.confidence) := by
  refine ⟨forecast_confidence, ?_, ?_⟩
  · intro noise data noise2 data2 steps r r2 h h2
    rw [forecast_confidence noise data steps r h,
      forecast_confidence noise2 data2 steps r2 h2]
  · intro noise data noise2 data2 s t r r2 h h2 hst
    rw [forecast_confidence noise data s r h,
      forecast_confidence noise2 data2 t r2 h2]
    have hpow : (9 / 10 : ℚ) ^ t < (9 / 10) ^ s := by
      apply pow_lt_pow_right_of_lt_one₀ (by norm_num) (by norm_num) hst
    have h8 : (0 : ℚ) < 8 / 10 := by norm_num
    exact mul_lt_mul_of_pos_left hpow h8

/-- C9 witness: the flat 5-point history with zero noise and horizon 0
succeeds, and the theorem instance gives its confidence formula. -/
theorem forecast_confidence_formula_witness :
    ∃ r, forecast_populations noiseZero flatHistory5 0 = .ok r
      ∧ r.confidence = (8 / 10 : ℚ) * (9 / 10) ^ 0 := by
  refine ⟨_, rfl, forecast_confidence_formula.1 noiseZero flatHistory5 0 _ rfl⟩
